import Mathlib

/-!
Shallow embedding of the CRM backend authentication and session lifecycle
(src/app/auth/jwt_handler.py, src/app/services/auth_service.py,
src/app/services/google_oauth_service.py, src/app/services/user_service.py,
src/app/routes/user.py), together with theorems settling the frozen claims
about refresh rotation, token verification, login errors, logout idempotence,
federated username generation, account deletion and password change.

Datetimes are modelled as natural numbers (seconds); the database session is
modelled as explicit state (lists of rows) threaded through each operation;
raised exceptions are modelled as Except values whose error constructors are
named after the messages raised in the source.
-/

namespace CRM

/-- Config.JWT_SECRET_KEY default (src/app/config.py line 68). -/
def JWT_SECRET_KEY : String := "your-secret-key-change-in-production"

/-- Config.JWT_ACCESS_TOKEN_EXPIRE_MINUTES default (src/app/config.py line 70). -/
def JWT_ACCESS_TOKEN_EXPIRE_MINUTES : Nat := 30

/-- Config.JWT_REFRESH_TOKEN_EXPIRE_DAYS default (src/app/config.py line 71). -/
def JWT_REFRESH_TOKEN_EXPIRE_DAYS : Nat := 7

/-- Model of the external password-hashing collaborator (passlib
pbkdf2_sha256, src/app/auth/jwt_handler.py lines 16-19 and 97-99): an
injective one-way tagging function; only the relation between hash and
verify below matters to the claims. -/
def hash_password (password : String) : String :=
  "pbkdf2_sha256$" ++ password

/-- Model of pwd_context.verify (src/app/auth/jwt_handler.py lines 101-103):
verification succeeds exactly when the stored digest is the digest of the
supplied plaintext. -/
def verify_password (plain hashed : String) : Bool :=
  hash_password plain == hashed

/-- A row of the users table (src/app/models/db_models.py lines 10-29). -/
structure UserRec where
  id : String
  email : String
  username : String
  password_hash : Option String
  google_id : Option String
  phone : Option String
  company : Option String
  profile_complete : Bool
  is_active : Bool
deriving DecidableEq, Repr

/-- A row of the refresh_tokens table (src/app/models/db_models.py lines 32-43). -/
structure TokenRec where
  token : String
  user_id : String
  expires_at : Nat
deriving DecidableEq, Repr

/-- A row of the reviews table, restricted to the owning-user column, the
only one the claims touch (src/app/models/db_models.py lines 46-60). -/
structure ReviewRec where
  user_id : String
deriving DecidableEq, Repr

/-- The database session state: the three tables the auth core touches. -/
structure DB where
  users : List UserRec
  tokens : List TokenRec
  reviews : List ReviewRec
deriving DecidableEq, Repr

/-- The claims dictionary of a JWT as this codebase builds it
(src/app/auth/jwt_handler.py lines 31-38): subject, optional email,
expiry instant, and the type discriminator. -/
structure Claims where
  sub : Option String
  email : Option String
  exp : Nat
  typ : String
deriving DecidableEq, Repr

/-- An input string to jwt.decode, classified by what decoding can observe:
either a well-formed JWT signed with some secret, or a malformed string. -/
inductive Jwt where
  | signed (claims : Claims) (secret : String)
  | malformed (raw : String)
deriving DecidableEq, Repr

/-- The error taxonomy: one constructor per distinct raised error, named
after the message raised in the source. -/
inductive Err where
  | emailAlreadyRegistered
  | usernameAlreadyTaken
  | accountNotFound
  | invalidPassword
  | invalidOrExpiredRefreshToken
  | invalidRefreshToken
  | invalidOrExpiredToken
  | invalidTokenType
  | duplicateEmail
  | duplicateUsername
  | loginFailed
  | typeErrorNoneHash
  | notFoundUserProfile
  | internalServerError
  | currentPasswordIncorrect
deriving DecidableEq, Repr

/-- JWTHandler.create_access_token (src/app/auth/jwt_handler.py lines 31-38):
copies the supplied data, stamps expiry now + minutes and type "access",
signs with the server secret. -/
def create_access_token (sub email : Option String) (now : Nat) : Jwt :=
  .signed { sub := sub, email := email,
            exp := now + JWT_ACCESS_TOKEN_EXPIRE_MINUTES * 60,
            typ := "access" } JWT_SECRET_KEY

/-- JWTHandler.create_refresh_token (src/app/auth/jwt_handler.py lines
40-55): the fresh random uuid is passed in as `token`; a row with expiry
now + days is inserted and the raw token value returned. -/
def create_refresh_token (user_id token : String) (now : Nat) (db : DB) :
    String × DB :=
  (token, { db with tokens := db.tokens ++
      [{ token := token, user_id := user_id,
         expires_at := now + JWT_REFRESH_TOKEN_EXPIRE_DAYS * 86400 }] })

/-- jose jwt.decode as used here: fails on a malformed payload, a signature
by a different secret, or an expired exp claim; otherwise yields the claims. -/
def jwtDecode (tok : Jwt) (secret : String) (now : Nat) : Option Claims :=
  match tok with
  | .malformed _ => none
  | .signed c s => if s == secret && decide (now ≤ c.exp) then some c else none

/-- JWTHandler.verify_access_token (src/app/auth/jwt_handler.py lines 57-67):
decode errors become the message "Invalid or expired token"; a decoded
payload whose type is not "access" raises "Invalid token type". -/
def verify_access_token (tok : Jwt) (now : Nat) : Except Err Claims :=
  match jwtDecode tok JWT_SECRET_KEY now with
  | none => .error .invalidOrExpiredToken
  | some c => if c.typ == "access" then .ok c else .error .invalidTokenType

/-- The ledger query inside JWTHandler.verify_refresh_token
(src/app/auth/jwt_handler.py lines 71-74): first stored row whose token
column equals the presented value and whose expires_at is strictly in the
future. -/
def find_valid (db : DB) (token : String) (now : Nat) : Option TokenRec :=
  db.tokens.find? (fun r => r.token == token && decide (now < r.expires_at))

/-- JWTHandler.verify_refresh_token (src/app/auth/jwt_handler.py lines
69-79): raises "Invalid or expired refresh token" when the query is empty,
otherwise returns the row's user relationship (the users row joined on
user_id, which the ORM yields without any active filter). -/
def verify_refresh_token (db : DB) (token : String) (now : Nat) :
    Except Err (Option UserRec) :=
  match find_valid db token now with
  | none => .error .invalidOrExpiredRefreshToken
  | some r => .ok (db.users.find? (fun u => u.id == r.user_id))

/-- JWTHandler.revoke_refresh_token (src/app/auth/jwt_handler.py lines
81-88): looks the row up by token value only; deletes it and returns true
when present, returns false otherwise. -/
def revoke_refresh_token (db : DB) (token : String) : DB × Bool :=
  match db.tokens.find? (fun r => r.token == token) with
  | some _ => ({ db with tokens := db.tokens.eraseP (fun r => r.token == token) }, true)
  | none => (db, false)

/-- JWTHandler.revoke_all_user_tokens (src/app/auth/jwt_handler.py lines
90-95): counts then deletes every row of the user; returns the count. -/
def revoke_all_user_tokens (db : DB) (user_id : String) : DB × Nat :=
  ({ db with tokens := db.tokens.filter (fun r => r.user_id != user_id) },
   (db.tokens.filter (fun r => r.user_id == user_id)).length)

/-- JWTHandler.get_user_by_email (src/app/auth/jwt_handler.py lines
105-107): first users row matching the email with is_active true. -/
def get_user_by_email (db : DB) (email : String) : Option UserRec :=
  db.users.find? (fun u => u.email == email && u.is_active)

/-- JWTHandler.get_user_by_id (src/app/auth/jwt_handler.py lines 109-111). -/
def get_user_by_id (db : DB) (user_id : String) : Option UserRec :=
  db.users.find? (fun u => u.id == user_id && u.is_active)

/-- JWTHandler.create_user (src/app/auth/jwt_handler.py lines 113-135): the
email duplicate check goes through get_user_by_email (active rows only),
the username duplicate check queries all users rows with no active filter;
the inserted row gets the hashed password and the model defaults
(google_id null, is_active true). The fresh uuid is passed in as newId. -/
def create_user (db : DB) (email username password newId : String) :
    Except Err (UserRec × DB) :=
  if (get_user_by_email db email).isSome then
    .error .emailAlreadyRegistered
  else if (db.users.find? (fun u => u.username == username)).isSome then
    .error .usernameAlreadyTaken
  else
    let user : UserRec :=
      { id := newId, email := email, username := username,
        password_hash := some (hash_password password), google_id := none,
        phone := none, company := none, profile_complete := false,
        is_active := true }
    .ok (user, { db with users := db.users ++ [user] })

/-- JWTHandler.authenticate_user (src/app/auth/jwt_handler.py lines
137-144): "Account not found" when no active user holds the email; a null
password_hash makes passlib raise TypeError (modelled as typeErrorNoneHash);
otherwise "Invalid password" exactly when verification fails. -/
def authenticate_user (db : DB) (email password : String) :
    Except Err UserRec :=
  match get_user_by_email db email with
  | none => .error .accountNotFound
  | some user =>
    match user.password_hash with
    | none => .error .typeErrorNoneHash
    | some h =>
      if verify_password password h then .ok user else .error .invalidPassword

/-- The public user view returned by the auth endpoints
(AuthService._create_user_response, src/app/services/auth_service.py lines
154-166), restricted to the fields the claims mention. -/
structure UserResponse where
  id : String
  username : String
  email : String
  phone : Option String
  company : Option String
  profile_complete : Bool
deriving DecidableEq, Repr

def mkUserResponse (u : UserRec) : UserResponse :=
  { id := u.id, username := u.username, email := u.email, phone := u.phone,
    company := u.company, profile_complete := u.profile_complete }

/-- The token pair plus user view returned by signup/login/refresh
(src/app/schemas, AuthResponse). -/
structure AuthResponse where
  access_token : Jwt
  refresh_token : String
  user : UserResponse
deriving DecidableEq, Repr

/-- AuthService.signup (src/app/services/auth_service.py lines 23-64):
create the user, mint the access token with sub and email claims, store a
refresh token, and translate the two duplicate messages into
DuplicateError("Email") and DuplicateError("Username"). -/
def signup (db : DB) (email username password newId newTok : String)
    (now : Nat) : Except Err (AuthResponse × DB) :=
  match create_user db email username password newId with
  | .error .emailAlreadyRegistered => .error .duplicateEmail
  | .error .usernameAlreadyTaken => .error .duplicateUsername
  | .error e => .error e
  | .ok (user, db1) =>
    let access := create_access_token (some user.id) (some user.email) now
    let rt := create_refresh_token user.id newTok now db1
    .ok ({ access_token := access, refresh_token := rt.1,
           user := mkUserResponse user }, rt.2)

/-- AuthService.login (src/app/services/auth_service.py lines 66-102):
authenticate, then mint a fresh access/refresh pair; a non-authentication
exception (the passlib TypeError on a null hash) is caught and re-raised as
the generic "Login failed". -/
def login (db : DB) (email password newTok : String) (now : Nat) :
    Except Err (AuthResponse × DB) :=
  match authenticate_user db email password with
  | .error .typeErrorNoneHash => .error .loginFailed
  | .error e => .error e
  | .ok user =>
    let access := create_access_token (some user.id) (some user.email) now
    let rt := create_refresh_token user.id newTok now db
    .ok ({ access_token := access, refresh_token := rt.1,
           user := mkUserResponse user }, rt.2)

/-- AuthService.logout (src/app/services/auth_service.py lines 104-111):
best-effort revoke of the presented refresh token; always returns the
success message (revocation of an absent row is not an error). -/
def logout (db : DB) (refresh_tok : String) : String × DB :=
  ("Successfully logged out", (revoke_refresh_token db refresh_tok).1)

/-- AuthService.refresh_token (src/app/services/auth_service.py lines
113-152): verify the presented token (error if absent or expired), guard
against a null joined user, mint a new access token, store a new refresh
token, then revoke the presented one. -/
def refresh_token (db : DB) (token newTok : String) (now : Nat) :
    Except Err (AuthResponse × DB) :=
  match verify_refresh_token db token now with
  | .error e => .error e
  | .ok none => .error .invalidRefreshToken
  | .ok (some user) =>
    let access := create_access_token (some user.id) (some user.email) now
    let rt := create_refresh_token user.id newTok now db
    let revoked := revoke_refresh_token rt.2 token
    .ok ({ access_token := access, refresh_token := rt.1,
           user := mkUserResponse user }, revoked.1)

/-- The username collision probe used by federated sign-in
(src/app/services/google_oauth_service.py line 131): any users row, active
or not. -/
def usernameTaken (db : DB) (username : String) : Bool :=
  (db.users.find? (fun u => u.username == username)).isSome

/-- The while loop of GoogleOAuthService._generate_username_from_email
(src/app/services/google_oauth_service.py lines 126-135): try
base ++ counter, base ++ (counter+1), ... until a free name is found. The
loop terminates in at most users.length + 1 probes, supplied as fuel. -/
def genUsernameLoop (db : DB) (base : String) (counter fuel : Nat) : String :=
  match fuel with
  | 0 => base ++ Nat.repr counter
  | f + 1 =>
    let candidate := base ++ Nat.repr counter
    if usernameTaken db candidate then genUsernameLoop db base (counter + 1) f
    else candidate

/-- The email local part: the longest prefix of the email containing no
"@", which is what email.split at index 0 yields in the source
(src/app/services/google_oauth_service.py line 126). -/
def emailLocalPart (email : String) : String :=
  String.mk (email.data.takeWhile (fun c => c != '@'))

/-- GoogleOAuthService._generate_username_from_email
(src/app/services/google_oauth_service.py lines 116-135): the base is the
email local part; it is returned directly when free, otherwise the numeric
suffix loop runs starting at counter 1. -/
def generate_username_from_email (db : DB) (email : String) : String :=
  let base := emailLocalPart email
  if usernameTaken db base then genUsernameLoop db base 1 (db.users.length + 1)
  else base

/-- Replace the first element satisfying p by its image under f: the effect
of mutating the single ORM object located by a first() query and
committing. -/
def modifyFirst {α : Type} (p : α → Bool) (f : α → α) : List α → List α
  | [] => []
  | a :: as => if p a then f a :: as else a :: modifyFirst p f as

/-- The tombstone rewrite applied by UserService.delete_account
(src/app/services/user_service.py lines 163-167). -/
def tombstone (u : UserRec) : UserRec :=
  { u with is_active := false,
           email := "deleted_" ++ u.id ++ "@deleted.com",
           username := "deleted_" ++ u.id,
           google_id := none }

/-- UserService.delete_account (src/app/services/user_service.py lines
136-179): look up the active user (404 otherwise), delete all of the
user's reviews, revoke all refresh tokens, then soft-delete the user row. -/
def delete_account (db : DB) (user_id : String) : Except Err (String × DB) :=
  match db.users.find? (fun u => u.id == user_id && u.is_active) with
  | none => .error .notFoundUserProfile
  | some _ =>
    let db1 : DB := { db with reviews := db.reviews.filter (fun r => r.user_id != user_id) }
    let db2 := (revoke_all_user_tokens db1 user_id).1
    let newUsers := modifyFirst (fun u => u.id == user_id && u.is_active) tombstone db2.users
    let db3 : DB := { db2 with users := newUsers }
    .ok ("Account deleted successfully", db3)

/-- The change_password route body (src/app/routes/user.py lines 128-171),
operating on the authenticated user id: 404 if no active row, the passlib
TypeError on a null hash surfaces as a 500, 400 "Current password is
incorrect" when verification fails (database untouched), and only on a
successful verification is the stored hash replaced by the hash of the new
password. Returns the outcome together with the resulting database state. -/
def change_password (db : DB) (user_id current_password new_password : String) :
    Except Err String × DB :=
  match db.users.find? (fun u => u.id == user_id && u.is_active) with
  | none => (.error .notFoundUserProfile, db)
  | some user =>
    match user.password_hash with
    | none => (.error .internalServerError, db)
    | some h =>
      if verify_password current_password h then
        let newUsers := modifyFirst (fun u => u.id == user_id && u.is_active)
          (fun u => { u with password_hash := some (hash_password new_password) })
          db.users
        (.ok "Password changed successfully", { db with users := newUsers })
      else (.error .currentPasswordIncorrect, db)

/-- The unique index on refresh_tokens.token (src/app/models/db_models.py
line 37). -/
def tokensUnique (db : DB) : Prop :=
  (db.tokens.map TokenRec.token).Nodup

/-- The primary key on users.id (src/app/models/db_models.py line 14). -/
def userIdsUnique (db : DB) : Prop :=
  (db.users.map UserRec.id).Nodup

/-- The unique index on users.email (src/app/models/db_models.py line 15). -/
def emailsUnique (db : DB) : Prop :=
  (db.users.map UserRec.email).Nodup

/-- The unique index on users.username (src/app/models/db_models.py line 16). -/
def usernamesUnique (db : DB) : Prop :=
  (db.users.map UserRec.username).Nodup

/-- The foreign key refresh_tokens.user_id -> users.id
(src/app/models/db_models.py line 38). -/
def tokensFk (db : DB) : Prop :=
  ∀ r ∈ db.tokens, ∃ u ∈ db.users, u.id = r.user_id

/-- Example user row shared by the concrete witnesses below. -/
def aliceUser : UserRec :=
  { id := "u1", email := "alice@x.com", username := "alice",
    password_hash := some (hash_password "pw1"), google_id := none,
    phone := none, company := none, profile_complete := false,
    is_active := true }

/-- Example database with one user owning one live refresh token. -/
def dbOneToken : DB :=
  { users := [aliceUser],
    tokens := [{ token := "t1", user_id := "u1", expires_at := 100 }],
    reviews := [] }

theorem eraseP_no_token {l : List TokenRec} {t : String}
    (huniq : (l.map TokenRec.token).Nodup)
    (hmem : ∃ r ∈ l, r.token = t) :
    ∀ r ∈ l.eraseP (fun r => r.token == t), r.token ≠ t := by
  induction l with
  | nil => rcases hmem with ⟨r, hr, _⟩; cases hr
  | cons a l ih =>
    simp only [List.map_cons, List.nodup_cons] at huniq
    by_cases ha : a.token = t
    · rw [List.eraseP_cons_of_pos (l := l) (by simp [ha])]
      intro r hr hrt
      exact huniq.1 (ha ▸ hrt ▸ List.mem_map_of_mem TokenRec.token hr)
    · rw [List.eraseP_cons_of_neg (l := l) (by simp [ha])]
      intro r hr
      rcases List.mem_cons.mp hr with h | h
      · exact h ▸ ha
      · have hmem2 : ∃ r ∈ l, r.token = t := by
          rcases hmem with ⟨r2, hr2, ht2⟩
          rcases List.mem_cons.mp hr2 with h2 | h2
          · exact absurd (h2 ▸ ht2) ha
          · exact ⟨r2, h2, ht2⟩
        exact ih huniq.2 hmem2 r h

theorem revoke_eq_of_mem (db : DB) (t : String)
    (hmem : ∃ r ∈ db.tokens, r.token = t) :
    revoke_refresh_token db t =
      ({ db with tokens := db.tokens.eraseP (fun r => r.token == t) }, true) := by
  have hs : ((db.tokens).find? (fun r => r.token == t)).isSome := by
    rw [List.find?_isSome]
    rcases hmem with ⟨r, hr, ht⟩
    exact ⟨r, hr, by simp [ht]⟩
  rcases Option.isSome_iff_exists.mp hs with ⟨x, hx⟩
  simp only [revoke_refresh_token, hx]

theorem revoke_eq_of_not_mem (db : DB) (t : String)
    (hmem : ∀ r ∈ db.tokens, r.token ≠ t) :
    revoke_refresh_token db t = (db, false) := by
  have hn : (db.tokens).find? (fun r => r.token == t) = none := by
    rw [List.find?_eq_none]
    intro r hr
    simp [hmem r hr]
  simp only [revoke_refresh_token, hn]

theorem find_valid_eq_none (db : DB) (t : String) (now : Nat)
    (h : ∀ r ∈ db.tokens, r.token ≠ t) :
    find_valid db t now = none := by
  rw [find_valid, List.find?_eq_none]
  intro r hr
  simp [h r hr]

theorem verify_error_of_find_none (db : DB) (t : String) (now : Nat)
    (h : find_valid db t now = none) :
    verify_refresh_token db t now = .error .invalidOrExpiredRefreshToken := by
  simp only [verify_refresh_token, h]

theorem refresh_error_of_verify_error (db : DB) (t newTok : String) (now : Nat)
    (h : verify_refresh_token db t now = .error .invalidOrExpiredRefreshToken) :
    refresh_token db t newTok now = .error .invalidOrExpiredRefreshToken := by
  simp only [refresh_token, h]

/-- C1: refresh rotation is single-use. For any database state whose stored
token values are duplicate-free (the unique index) and any presented token
t, if Refresh(t) succeeds — rotating to a fresh value new1 distinct from t —
then a second Refresh(t) against the resulting state fails with the
"Invalid or expired refresh token" error at every later time, and the
consumed token is no longer accepted by the find_valid ledger lookup. -/
theorem refresh_rotation_single_use
    (db : DB) (t new1 new2 : String) (now1 now2 : Nat)
    (resp : AuthResponse) (db' : DB)
    (huniq : tokensUnique db) (hne : new1 ≠ t)
    (hok : refresh_token db t new1 now1 = .ok (resp, db')) :
    refresh_token db' t new2 now2 = .error .invalidOrExpiredRefreshToken ∧
    find_valid db' t now2 = none := by
  rcases hv : verify_refresh_token db t now1 with e | ou
  · rw [refresh_token, hv] at hok; cases hok
  · rcases ou with _ | user
    · rw [refresh_token, hv] at hok
      exact absurd hok (by simp)
    · -- extract the matched ledger row from the successful verification
      rcases hfv : find_valid db t now1 with _ | r0
      · rw [verify_refresh_token, hfv] at hv; cases hv
      have hr0mem : r0 ∈ db.tokens := List.mem_of_find?_eq_some hfv
      have hr0tok : r0.token = t := by
        have := List.find?_some hfv
        simp only [Bool.and_eq_true, beq_iff_eq, decide_eq_true_eq] at this
        exact this.1
      -- compute the state the successful refresh produced
      rw [refresh_token, hv] at hok
      simp only [create_refresh_token, Except.ok.injEq, Prod.mk.injEq] at hok
      set newRec : TokenRec :=
        { token := new1, user_id := user.id,
          expires_at := now1 + JWT_REFRESH_TOKEN_EXPIRE_DAYS * 86400 } with hnewRec
      have hrv := revoke_eq_of_mem
        { db with tokens := db.tokens ++ [newRec] } t
        ⟨r0, List.mem_append_left _ hr0mem, hr0tok⟩
      rw [hrv] at hok
      have hdb' : db'.tokens =
          (db.tokens ++ [newRec]).eraseP (fun r => r.token == t) := by
        rw [← hok.2]
      have hsplit : (db.tokens ++ [newRec]).eraseP (fun r => r.token == t) =
          db.tokens.eraseP (fun r => r.token == t) ++ [newRec] :=
        List.eraseP_append_left (by simp [hr0tok]) _ hr0mem
      have hnot : ∀ r ∈ db'.tokens, r.token ≠ t := by
        intro r hr
        rw [hdb', hsplit] at hr
        rcases List.mem_append.mp hr with h | h
        · exact eraseP_no_token huniq ⟨r0, hr0mem, hr0tok⟩ r h
        · rcases List.mem_singleton.mp h with rfl
          simpa using hne
      have hfnone : find_valid db' t now2 = none := find_valid_eq_none _ _ _ hnot
      exact ⟨refresh_error_of_verify_error _ _ _ _
        (verify_error_of_find_none _ _ _ hfnone), hfnone⟩

theorem refresh_rotation_single_use_witness :
    refresh_token
      { users := [aliceUser],
        tokens := [{ token := "t2", user_id := "u1", expires_at := 604800 }],
        reviews := [] } "t1" "t3" 50
      = .error .invalidOrExpiredRefreshToken ∧
    find_valid
      { users := [aliceUser],
        tokens := [{ token := "t2", user_id := "u1", expires_at := 604800 }],
        reviews := [] } "t1" 50 = none :=
  refresh_rotation_single_use dbOneToken "t1" "t2" "t3" 0 50
    { access_token := create_access_token (some "u1") (some "alice@x.com") 0,
      refresh_token := "t2", user := mkUserResponse aliceUser }
    { users := [aliceUser],
      tokens := [{ token := "t2", user_id := "u1", expires_at := 604800 }],
      reviews := [] }
    (by unfold tokensUnique; decide) (by decide) (by rfl)

/-- C2: under referential integrity of the ledger (every stored token row
points at an existing user), the refresh-token lookup returns the owning
user exactly when a row with the presented token value exists whose
expires_at is strictly greater than now; otherwise — in particular for a
present but expired row — it fails with the "Invalid or expired refresh
token" error. -/
theorem find_valid_iff_live_record
    (db : DB) (t : String) (now : Nat) (hfk : tokensFk db) :
    ((∃ r ∈ db.tokens, r.token = t ∧ now < r.expires_at) →
       ∃ u, u ∈ db.users ∧ verify_refresh_token db t now = .ok (some u) ∧
         ∃ r ∈ db.tokens, r.token = t ∧ now < r.expires_at ∧ r.user_id = u.id) ∧
    ((¬ ∃ r ∈ db.tokens, r.token = t ∧ now < r.expires_at) →
       verify_refresh_token db t now = .error .invalidOrExpiredRefreshToken) := by
  constructor
  · rintro ⟨r, hr, hrt, hre⟩
    have hsome : (find_valid db t now).isSome := by
      rw [find_valid, List.find?_isSome]
      exact ⟨r, hr, by simp [hrt, hre]⟩
    rcases Option.isSome_iff_exists.mp hsome with ⟨r0, hr0⟩
    have hr0find : db.tokens.find?
        (fun r => r.token == t && decide (now < r.expires_at)) = some r0 := hr0
    have hr0mem : r0 ∈ db.tokens := List.mem_of_find?_eq_some hr0find
    have hr0p := List.find?_some hr0find
    simp only [Bool.and_eq_true, beq_iff_eq, decide_eq_true_eq] at hr0p
    have husome : ((db.users).find? (fun u => u.id == r0.user_id)).isSome := by
      rw [List.find?_isSome]
      rcases hfk r0 hr0mem with ⟨u, hu, hid⟩
      exact ⟨u, hu, by simp [hid]⟩
    rcases Option.isSome_iff_exists.mp husome with ⟨u0, hu0⟩
    have hu0id : u0.id = r0.user_id := by simpa using List.find?_some hu0
    refine ⟨u0, List.mem_of_find?_eq_some hu0, ?_, r0, hr0mem, hr0p.1, hr0p.2,
      hu0id.symm⟩
    simp only [verify_refresh_token, hr0, hu0]
  · intro hne
    apply verify_error_of_find_none
    rw [find_valid, List.find?_eq_none]
    intro r hr
    simp only [Bool.and_eq_true, beq_iff_eq, decide_eq_true_eq, not_and]
    intro hrt hre
    exact hne ⟨r, hr, hrt, hre⟩

theorem find_valid_iff_live_record_witness :
    ((∃ r ∈ dbOneToken.tokens, r.token = "t1" ∧ 200 < r.expires_at) →
       ∃ u, u ∈ dbOneToken.users ∧
         verify_refresh_token dbOneToken "t1" 200 = .ok (some u) ∧
         ∃ r ∈ dbOneToken.tokens, r.token = "t1" ∧ 200 < r.expires_at ∧
           r.user_id = u.id) ∧
    ((¬ ∃ r ∈ dbOneToken.tokens, r.token = "t1" ∧ 200 < r.expires_at) →
       verify_refresh_token dbOneToken "t1" 200 =
         .error .invalidOrExpiredRefreshToken) :=
  find_valid_iff_live_record dbOneToken "t1" 200 (by unfold tokensFk; decide)

/-- Example empty database and the records produced by a first signup on
it, shared by the signup witness below. -/
def dbEmpty : DB := { users := [], tokens := [], reviews := [] }

def newAlice : UserRec :=
  { id := "u1", email := "a@x.com", username := "alice",
    password_hash := some (hash_password "pw"), google_id := none,
    phone := none, company := none, profile_complete := false,
    is_active := true }

def respC3 : AuthResponse :=
  { access_token := create_access_token (some "u1") (some "a@x.com") 0,
    refresh_token := "t1", user := mkUserResponse newAlice }

def dbC3 : DB :=
  { users := [newAlice],
    tokens := [{ token := "t1", user_id := "u1", expires_at := 604800 }],
    reviews := [] }

theorem verify_after_insert (db : DB) (u : UserRec) (tk : TokenRec) (now : Nat)
    (hid : ∀ x ∈ db.users, x.id ≠ u.id)
    (htok : ∀ r ∈ db.tokens, r.token ≠ tk.token)
    (huid : tk.user_id = u.id)
    (hlive : now < tk.expires_at) :
    verify_refresh_token
      { users := db.users ++ [u], tokens := db.tokens ++ [tk], reviews := db.reviews }
      tk.token now = .ok (some u) := by
  have hfv : find_valid
      { users := db.users ++ [u], tokens := db.tokens ++ [tk], reviews := db.reviews }
      tk.token now = some tk := by
    rw [find_valid]
    show (db.tokens ++ [tk]).find?
      (fun r => r.token == tk.token && decide (now < r.expires_at)) = some tk
    rw [List.find?_append]
    have hleft : db.tokens.find?
        (fun r => r.token == tk.token && decide (now < r.expires_at)) = none := by
      rw [List.find?_eq_none]
      intro r hr
      simp [htok r hr]
    rw [hleft]
    simp [hlive]
  simp only [verify_refresh_token, hfv]
  show Except.ok ((db.users ++ [u]).find? (fun x => x.id == tk.user_id)) = _
  rw [huid, List.find?_append]
  have hul : db.users.find? (fun x => x.id == u.id) = none := by
    rw [List.find?_eq_none]
    intro x hx
    simp [hid x hx]
  rw [hul]
  simp

/-- C3: every successful signup returns an access token whose decoded
subject claim equals the id of the user record the signup created, and a
refresh token that the ledger lookup immediately accepts, resolving to that
same created user. The freshness hypotheses say the generated uuid id and
uuid token value do not collide with existing rows (the database unique
constraints). -/
theorem signup_tokens_valid
    (db : DB) (email username password newId newTok : String) (now : Nat)
    (resp : AuthResponse) (db2 : DB)
    (hid : ∀ u ∈ db.users, u.id ≠ newId)
    (htok : ∀ r ∈ db.tokens, r.token ≠ newTok)
    (hok : signup db email username password newId newTok now = .ok (resp, db2)) :
    (∃ c, verify_access_token resp.access_token now = .ok c ∧ c.sub = some newId) ∧
    ∃ u, db2.users = db.users ++ [u] ∧ u.id = newId ∧
      verify_refresh_token db2 resp.refresh_token now = .ok (some u) := by
  rcases hcu : create_user db email username password newId with e | pr
  · rw [signup, hcu] at hok
    cases e <;> simp at hok
  obtain ⟨user, db1⟩ := pr
  by_cases h1 : (get_user_by_email db email).isSome
  · rw [create_user, if_pos h1] at hcu; cases hcu
  by_cases h2 : ((db.users).find? (fun u => u.username == username)).isSome
  · rw [create_user, if_neg h1, if_pos h2] at hcu; cases hcu
  rw [create_user, if_neg h1, if_neg h2] at hcu
  simp only [Except.ok.injEq, Prod.mk.injEq] at hcu
  obtain ⟨huser, hdb1⟩ := hcu
  rw [signup, create_user, if_neg h1, if_neg h2] at hok
  simp only [create_refresh_token, Except.ok.injEq, Prod.mk.injEq] at hok
  obtain ⟨hresp, hdb2⟩ := hok
  subst huser hdb1 hresp hdb2
  constructor
  · refine ⟨{ sub := some newId,
               email := some email,
               exp := now + JWT_ACCESS_TOKEN_EXPIRE_MINUTES * 60,
               typ := "access" }, ?_, rfl⟩
    rw [verify_access_token, create_access_token, jwtDecode]
    simp
  · refine ⟨_, rfl, rfl, ?_⟩
    refine verify_after_insert db _ _ now ?_ ?_ rfl ?_
    · exact fun x hx => hid x hx
    · exact fun r hr => htok r hr
    · show now < now + JWT_REFRESH_TOKEN_EXPIRE_DAYS * 86400
      simp [JWT_REFRESH_TOKEN_EXPIRE_DAYS]

theorem signup_tokens_valid_witness :
    (∃ c, verify_access_token respC3.access_token 0 = .ok c ∧
       c.sub = some "u1") ∧
    ∃ u, dbC3.users = dbEmpty.users ++ [u] ∧ u.id = "u1" ∧
      verify_refresh_token dbC3 respC3.refresh_token 0 = .ok (some u) :=
  signup_tokens_valid dbEmpty "a@x.com" "alice" "pw" "u1" "t1" 0 respC3 dbC3
    (by decide) (by decide) (by rfl)

/-- C4: login fails with "Account not found" when no active user holds the
email; when an active user is found but the supplied password does not
verify against the stored hash it fails with the distinct "Invalid
password" error; the two error values are different; and when the password
verifies, login succeeds, returning a freshly minted access token for the
user together with the freshly stored refresh token. -/
theorem login_error_taxonomy
    (db : DB) (email password newTok : String) (now : Nat) :
    ((∀ u ∈ db.users, ¬(u.email = email ∧ u.is_active = true)) →
        login db email password newTok now = .error .accountNotFound) ∧
    (∀ u hs, get_user_by_email db email = some u → u.password_hash = some hs →
        verify_password password hs = false →
        login db email password newTok now = .error .invalidPassword) ∧
    Err.accountNotFound ≠ Err.invalidPassword ∧
    (∀ u hs, get_user_by_email db email = some u → u.password_hash = some hs →
        verify_password password hs = true →
        login db email password newTok now = .ok
          ({ access_token := create_access_token (some u.id) (some u.email) now,
             refresh_token := newTok, user := mkUserResponse u },
           { db with tokens := db.tokens ++
               [{ token := newTok, user_id := u.id,
                  expires_at := now + JWT_REFRESH_TOKEN_EXPIRE_DAYS * 86400 }] })) := by
  refine ⟨?_, ?_, by simp, ?_⟩
  · intro hnone
    have hge : get_user_by_email db email = none := by
      rw [get_user_by_email, List.find?_eq_none]
      intro u hu
      have := hnone u hu
      simp only [Bool.and_eq_true, beq_iff_eq]
      tauto
    simp only [login, authenticate_user, hge]
  · intro u hs hu hph hv
    simp only [login, authenticate_user, hu, hph, hv]
    simp
  · intro u hs hu hph hv
    simp only [login, authenticate_user, hu, hph, hv, create_refresh_token]
    simp

theorem login_error_taxonomy_witness :
    login dbOneToken "alice@x.com" "wrongpw" "t9" 0 = .error .invalidPassword :=
  (login_error_taxonomy dbOneToken "alice@x.com" "wrongpw" "t9" 0).2.1
    aliceUser (hash_password "pw1") (by rfl) (by rfl) (by decide)

/-- C5: access-token verification is a pure function of the token, the
server secret and the current time (it takes no database state). A
malformed payload or a signature under a different secret fails with the
"Invalid or expired token" error, as does an expired but well-signed
token; a well-signed unexpired token whose type discriminator is not
"access" fails with the distinct "Invalid token type" error; and a
well-signed unexpired token of type "access" yields its decoded claims. -/
theorem verify_access_token_cases (tok : Jwt) (now : Nat) :
    (∀ raw, tok = .malformed raw →
       verify_access_token tok now = .error .invalidOrExpiredToken) ∧
    (∀ c s, tok = .signed c s → s ≠ JWT_SECRET_KEY →
       verify_access_token tok now = .error .invalidOrExpiredToken) ∧
    (∀ c, tok = .signed c JWT_SECRET_KEY → c.exp < now →
       verify_access_token tok now = .error .invalidOrExpiredToken) ∧
    (∀ c, tok = .signed c JWT_SECRET_KEY → now ≤ c.exp → c.typ ≠ "access" →
       verify_access_token tok now = .error .invalidTokenType) ∧
    (∀ c, tok = .signed c JWT_SECRET_KEY → now ≤ c.exp → c.typ = "access" →
       verify_access_token tok now = .ok c) := by
  refine ⟨?_, ?_, ?_, ?_, ?_⟩
  · rintro raw rfl
    rw [verify_access_token, jwtDecode]
  · rintro c s rfl hne
    rw [verify_access_token, jwtDecode]
    simp [hne]
  · rintro c rfl hexp
    rw [verify_access_token, jwtDecode]
    simp [Nat.not_le_of_lt hexp]
  · rintro c rfl hexp hty
    rw [verify_access_token, jwtDecode]
    simp [hexp, hty]
  · rintro c rfl hexp hty
    rw [verify_access_token, jwtDecode]
    simp [hexp, hty]

theorem verify_access_token_cases_witness :
    verify_access_token (.malformed "garbage") 7 =
      .error .invalidOrExpiredToken :=
  (verify_access_token_cases (.malformed "garbage") 7).1 "garbage" rfl

/-- C6: logout is idempotent. Under the unique index on stored token
values, logout always returns the success message without raising; revoking
an unknown (or already revoked) token consistently reports false, the "not
found" indication, and leaves the state unchanged; and a second logout with
the same token leaves the ledger state produced by the first logout
unchanged. -/
theorem logout_idempotent (db : DB) (t : String) (huniq : tokensUnique db) :
    (logout db t).1 = "Successfully logged out" ∧
    ((∀ r ∈ db.tokens, r.token ≠ t) → revoke_refresh_token db t = (db, false)) ∧
    logout (logout db t).2 t = ("Successfully logged out", (logout db t).2) ∧
    (revoke_refresh_token (logout db t).2 t).2 = false := by
  refine ⟨rfl, fun h => revoke_eq_of_not_mem db t h, ?_⟩
  by_cases hmem : ∃ r ∈ db.tokens, r.token = t
  · have hrv := revoke_eq_of_mem db t hmem
    have hstate : (logout db t).2 =
        { db with tokens := db.tokens.eraseP (fun r => r.token == t) } := by
      rw [logout, hrv]
    have hgone : ∀ r ∈ (logout db t).2.tokens, r.token ≠ t := by
      rw [hstate]
      exact eraseP_no_token huniq hmem
    have hrv2 := revoke_eq_of_not_mem (logout db t).2 t hgone
    constructor
    · rw [logout, hrv2]
    · rw [hrv2]
  · have hall : ∀ r ∈ db.tokens, r.token ≠ t := by
      intro r hr he
      exact hmem ⟨r, hr, he⟩
    have hrv := revoke_eq_of_not_mem db t hall
    have hstate : (logout db t).2 = db := by rw [logout, hrv]
    have hall2 : ∀ r ∈ (logout db t).2.tokens, r.token ≠ t := by
      rw [hstate]
      exact hall
    have hrv2 := revoke_eq_of_not_mem (logout db t).2 t hall2
    constructor
    · rw [logout, hrv2]
    · rw [hrv2]

theorem logout_idempotent_witness :
    (logout dbOneToken "t1").1 = "Successfully logged out" ∧
    ((∀ r ∈ dbOneToken.tokens, r.token ≠ "t1") →
       revoke_refresh_token dbOneToken "t1" = (dbOneToken, false)) ∧
    logout (logout dbOneToken "t1").2 "t1" =
      ("Successfully logged out", (logout dbOneToken "t1").2) ∧
    (revoke_refresh_token (logout dbOneToken "t1").2 "t1").2 = false :=
  logout_idempotent dbOneToken "t1" (by unfold tokensUnique; decide)

theorem genUsernameLoop_spec (db : DB) (base : String) :
    ∀ (fuel c k : Nat), c ≤ k → k + 1 ≤ c + fuel →
    (∀ j, c ≤ j → j < k → usernameTaken db (base ++ Nat.repr j) = true) →
    usernameTaken db (base ++ Nat.repr k) = false →
    genUsernameLoop db base c fuel = base ++ Nat.repr k := by
  intro fuel
  induction fuel with
  | zero =>
    intro c k hck hfuel _ _
    omega
  | succ f ih =>
    intro c k hck hfuel htaken hfree
    rcases Nat.lt_or_ge c k with hlt | hge
    · have hstep : genUsernameLoop db base c (f + 1) =
          genUsernameLoop db base (c + 1) f := by
        rw [genUsernameLoop]
        simp only [if_pos (htaken c le_rfl hlt)]
      rw [hstep]
      exact ih (c + 1) k hlt (by omega)
        (fun j hj1 hj2 => htaken j (by omega) hj2) hfree
    · have hck2 : c = k := Nat.le_antisymm hck hge
      subst hck2
      rw [genUsernameLoop]
      simp only [hfree]
      simp

/-- C7: federated sign-in username generation. When the email local part b
is held by no users row it is returned unchanged; otherwise the result is b
followed by the smallest positive integer k — probing b, b1, b2, ... in
order — such that b{k} is held by no users row (k never needs to exceed the
number of user rows plus one, the fuel bound of the embedded loop). -/
theorem generate_username_spec (db : DB) (email base : String) (k : Nat)
    (hbase : emailLocalPart email = base) :
    (usernameTaken db base = false → generate_username_from_email db email = base) ∧
    (usernameTaken db base = true → 1 ≤ k → k ≤ db.users.length + 1 →
     (∀ j, 1 ≤ j → j < k → usernameTaken db (base ++ Nat.repr j) = true) →
     usernameTaken db (base ++ Nat.repr k) = false →
     generate_username_from_email db email = base ++ Nat.repr k) := by
  constructor
  · intro hfree
    rw [generate_username_from_email, hbase]
    simp only [hfree]
    simp
  · intro htakenB h1 hk htaken hfree
    rw [generate_username_from_email, hbase]
    simp only [htakenB, if_true]
    exact genUsernameLoop_spec db base (db.users.length + 1) 1 k h1 (by omega)
      (fun j hj1 hj2 => htaken j hj1 hj2) hfree

/-- Example database holding users named jane and jane1, for the username
generation witness. -/
def dbJane : DB :=
  { users :=
      [{ id := "u1", email := "jane@x.com", username := "jane",
         password_hash := none, google_id := some "g1", phone := none,
         company := none, profile_complete := false, is_active := true },
       { id := "u2", email := "jane2@x.com", username := "jane1",
         password_hash := none, google_id := some "g2", phone := none,
         company := none, profile_complete := false, is_active := true }],
    tokens := [], reviews := [] }

theorem generate_username_spec_witness :
    generate_username_from_email dbJane "jane@x.com" = "jane" ++ Nat.repr 2 :=
  (generate_username_spec dbJane "jane@x.com" "jane" 2 (by decide)).2
    (by decide) (by decide) (by decide)
    (by
      intro j hj1 hj2
      have hj : j = 1 := by omega
      subst hj
      decide)
    (by decide)

theorem modifyFirst_unique_mem {α : Type} (p : α → Bool) (f : α → α) (a : α) :
    ∀ l : List α, l.Nodup → a ∈ l → p a = true →
      (∀ x ∈ l, p x = true → x = a) →
      f a ∈ modifyFirst p f l ∧
      ∀ x ∈ modifyFirst p f l, x = f a ∨ (x ∈ l ∧ x ≠ a ∧ p x = false) := by
  intro l
  induction l with
  | nil =>
    intro _ ha
    cases ha
  | cons b bs ih =>
    intro hnd hmem hpa huniq
    rcases List.nodup_cons.mp hnd with ⟨hbnotin, hndbs⟩
    by_cases hpb : p b = true
    · have hba : b = a := huniq b (List.mem_cons_self b bs) hpb
      subst hba
      rw [modifyFirst, if_pos hpb]
      refine ⟨List.mem_cons_self _ _, ?_⟩
      intro x hx
      rcases List.mem_cons.mp hx with h | h
      · exact .inl h
      · right
        have hxb : x ≠ b := fun he => hbnotin (he ▸ h)
        refine ⟨List.mem_cons_of_mem _ h, hxb, ?_⟩
        by_cases hpx : p x = true
        · exact absurd (huniq x (List.mem_cons_of_mem _ h) hpx) hxb
        · simpa using hpx
    · have hab : a ∈ bs := by
        rcases List.mem_cons.mp hmem with h | h
        · exact absurd (h ▸ hpa) hpb
        · exact h
      rw [modifyFirst, if_neg hpb]
      have hres := ih hndbs hab hpa
        (fun x hx hpx => huniq x (List.mem_cons_of_mem _ hx) hpx)
      refine ⟨List.mem_cons_of_mem _ hres.1, ?_⟩
      intro x hx
      rcases List.mem_cons.mp hx with h | h
      · right
        subst h
        have hba : x ≠ a := fun he => hpb (he ▸ hpa)
        exact ⟨List.mem_cons_self x bs, hba, by simpa using hpb⟩
      · rcases hres.2 x h with h2 | h2
        · exact .inl h2
        · exact .inr ⟨List.mem_cons_of_mem _ h2.1, h2.2.1, h2.2.2⟩

/-- C8 (amended): account deletion tombstones rather than hard-deletes. For
an active user u (under the unique indexes on id, email and username, and
provided the original username is not literally the tombstone string
deleted_ followed by the user id), delete_account succeeds, leaving a state
in which no refresh token and no review belonging to u remains, the
tombstoned user row is present (active flag cleared, email and username
rewritten to the deleted_ values, Google id cleared), and a fresh signup
with the original email and original username succeeds. The side condition
is forced: the counterexample below shows the unconditional claim fails
when the original username equals its own tombstone string. -/
theorem delete_account_tombstones
    (db : DB) (u : UserRec) (password newId newTok : String) (now : Nat)
    (hmem : u ∈ db.users) (hactive : u.is_active = true)
    (hids : userIdsUnique db) (hemails : emailsUnique db)
    (husernames : usernamesUnique db)
    (husernameTomb : u.username ≠ "deleted_" ++ u.id) :
    ∃ db2, delete_account db u.id = .ok ("Account deleted successfully", db2) ∧
      (∀ r ∈ db2.tokens, r.user_id ≠ u.id) ∧
      (∀ rv ∈ db2.reviews, rv.user_id ≠ u.id) ∧
      tombstone u ∈ db2.users ∧
      (tombstone u).is_active = false ∧
      (tombstone u).email = "deleted_" ++ u.id ++ "@deleted.com" ∧
      (tombstone u).username = "deleted_" ++ u.id ∧
      (tombstone u).google_id = none ∧
      (signup db2 u.email u.username password newId newTok now).isOk = true := by
  have hpu : (fun x => x.id == u.id && x.is_active) u = true := by
    simp [hactive]
  have huniqp : ∀ x ∈ db.users,
      (fun x => x.id == u.id && x.is_active) x = true → x = u := by
    intro x hx hpx
    simp only [Bool.and_eq_true, beq_iff_eq] at hpx
    exact List.inj_on_of_nodup_map hids hx hmem hpx.1
  have hnd : db.users.Nodup := List.Nodup.of_map UserRec.id hids
  have hfind : ((db.users).find? (fun x => x.id == u.id && x.is_active)).isSome := by
    rw [List.find?_isSome]
    exact ⟨u, hmem, hpu⟩
  rcases Option.isSome_iff_exists.mp hfind with ⟨w, hw⟩
  have hmf := modifyFirst_unique_mem (fun x => x.id == u.id && x.is_active)
    tombstone u db.users hnd hmem hpu huniqp
  refine ⟨{ users := modifyFirst (fun x => x.id == u.id && x.is_active)
              tombstone db.users,
            tokens := db.tokens.filter (fun r => r.user_id != u.id),
            reviews := db.reviews.filter (fun r => r.user_id != u.id) },
    ?_, ?_, ?_, hmf.1, rfl, rfl, rfl, rfl, ?_⟩
  · rw [delete_account, hw]
    rfl
  · intro r hr
    have hmemf : r ∈ db.tokens.filter (fun r => r.user_id != u.id) := hr
    have := (List.mem_filter.mp hmemf).2
    simpa using this
  · intro rv hrv
    have hmemf : rv ∈ db.reviews.filter (fun r => r.user_id != u.id) := hrv
    have := (List.mem_filter.mp hmemf).2
    simpa using this
  · -- the fresh signup with the original identifiers succeeds
    have hemail_none : ∀ x ∈ modifyFirst (fun x => x.id == u.id && x.is_active)
        tombstone db.users, ¬((fun x => x.email == u.email && x.is_active) x = true) := by
      intro x hx
      rcases hmf.2 x hx with h | ⟨hxl, hxne, _⟩
      · rw [h]
        simp [tombstone]
      · simp only [Bool.and_eq_true, beq_iff_eq, not_and]
        intro hxe _
        exact hxne (List.inj_on_of_nodup_map hemails hxl hmem hxe)
    have husername_none : ∀ x ∈ modifyFirst (fun x => x.id == u.id && x.is_active)
        tombstone db.users, ¬((fun x => x.username == u.username) x = true) := by
      intro x hx
      rcases hmf.2 x hx with h | ⟨hxl, hxne, _⟩
      · rw [h]
        simp only [beq_iff_eq]
        intro he
        exact husernameTomb (by simpa [tombstone] using he.symm)
      · simp only [beq_iff_eq]
        intro hxe
        exact hxne (List.inj_on_of_nodup_map husernames hxl hmem hxe)
    have h1 : (get_user_by_email
        { users := modifyFirst (fun x => x.id == u.id && x.is_active) tombstone db.users,
          tokens := db.tokens.filter (fun r => r.user_id != u.id),
          reviews := db.reviews.filter (fun r => r.user_id != u.id) } u.email).isSome
        = false := by
      rw [get_user_by_email]
      show ((modifyFirst (fun x => x.id == u.id && x.is_active) tombstone
        db.users).find? (fun x => x.email == u.email && x.is_active)).isSome = false
      rw [Bool.eq_false_iff]
      intro hs
      rcases List.find?_isSome.mp hs with ⟨x, hx, hpx⟩
      exact hemail_none x hx hpx
    have h2 : ((modifyFirst (fun x => x.id == u.id && x.is_active) tombstone
        db.users).find? (fun x => x.username == u.username)).isSome = false := by
      rw [Bool.eq_false_iff]
      intro hs
      rcases List.find?_isSome.mp hs with ⟨x, hx, hpx⟩
      exact husername_none x hx hpx
    rw [signup, create_user, if_neg (by simp [h1]), if_neg (by simp [h2])]
    rfl

theorem delete_account_tombstones_witness :
    ∃ db2, delete_account dbOneToken aliceUser.id =
        .ok ("Account deleted successfully", db2) ∧
      (∀ r ∈ db2.tokens, r.user_id ≠ aliceUser.id) ∧
      (∀ rv ∈ db2.reviews, rv.user_id ≠ aliceUser.id) ∧
      tombstone aliceUser ∈ db2.users ∧
      (tombstone aliceUser).is_active = false ∧
      (tombstone aliceUser).email =
        "deleted_" ++ aliceUser.id ++ "@deleted.com" ∧
      (tombstone aliceUser).username = "deleted_" ++ aliceUser.id ∧
      (tombstone aliceUser).google_id = none ∧
      (signup db2 aliceUser.email aliceUser.username "npw" "u9" "t9" 3).isOk
        = true :=
  delete_account_tombstones dbOneToken aliceUser "npw" "u9" "t9" 3
    (by decide) (by decide) (by unfold userIdsUnique; decide)
    (by unfold emailsUnique; decide) (by unfold usernamesUnique; decide)
    (by decide)

/-- A database whose single active user has renamed themselves to the
literal tombstone string deleted_u1 (reachable through the profile-update
route, whose uniqueness check filters on the active flag). -/
def dbEvil : DB :=
  { users :=
      [{ id := "u1", email := "e@x.com", username := "deleted_u1",
         password_hash := some (hash_password "pw"), google_id := none,
         phone := none, company := none, profile_complete := false,
         is_active := true }],
    tokens := [], reviews := [] }

/-- The state dbEvil reaches after delete_account: the tombstone rewrite
leaves the username unchanged at deleted_u1. -/
def dbEvilDeleted : DB :=
  { users :=
      [{ id := "u1", email := "deleted_u1@deleted.com",
         username := "deleted_u1",
         password_hash := some (hash_password "pw"), google_id := none,
         phone := none, company := none, profile_complete := false,
         is_active := false }],
    tokens := [], reviews := [] }

/-- C8 counterexample: the unconditional claim fails when the deleted
account's username is literally deleted_ followed by its id. Deletion
succeeds and tombstones the row, but the tombstoned username coincides
with the original one, and because signup's username check has no active
filter, the subsequent signup with the original email and original
username fails with the duplicate-username error instead of succeeding. -/
theorem delete_account_tombstones_cex :
    delete_account dbEvil "u1" =
      .ok ("Account deleted successfully", dbEvilDeleted) ∧
    signup dbEvilDeleted "e@x.com" "deleted_u1" "pw" "u9" "t9" 0 =
      .error .duplicateUsername :=
  ⟨rfl, rfl⟩

/-- C9: change password is guarded and atomic on failure. For an
authenticated active user (located by id, with a stored password hash),
when the supplied current password does not verify against the stored hash
the operation fails with the "Current password is incorrect" error and the
database — in particular the stored password_hash and every other user
field — is returned unchanged; when it verifies, the operation succeeds and
exactly the located user row has its password_hash replaced by the hash of
the new password, the rest of the state being untouched. -/
theorem change_password_guarded
    (db : DB) (uid current newpw : String) (u : UserRec) (hs : String)
    (hids : userIdsUnique db)
    (hfind : db.users.find? (fun x => x.id == uid && x.is_active) = some u)
    (hhash : u.password_hash = some hs) :
    (verify_password current hs = false →
       change_password db uid current newpw =
         (.error .currentPasswordIncorrect, db)) ∧
    (verify_password current hs = true →
       (change_password db uid current newpw).1 =
         .ok "Password changed successfully" ∧
       (change_password db uid current newpw).2.users =
         modifyFirst (fun x => x.id == uid && x.is_active)
           (fun x => { x with password_hash := some (hash_password newpw) })
           db.users ∧
       (change_password db uid current newpw).2.tokens = db.tokens ∧
       (change_password db uid current newpw).2.reviews = db.reviews ∧
       { u with password_hash := some (hash_password newpw) } ∈
         (change_password db uid current newpw).2.users) := by
  constructor
  · intro hv
    simp only [change_password, hfind, hhash, hv]
    simp
  · intro hv
    have hred : change_password db uid current newpw =
        (.ok "Password changed successfully",
         { db with users :=
                     modifyFirst (fun x => x.id == uid && x.is_active)
                       (fun x => { x with password_hash := some (hash_password newpw) })
                       db.users }) := by
      simp only [change_password, hfind, hhash, hv]
      simp
    refine ⟨by rw [hred], by rw [hred], by rw [hred], by rw [hred], ?_⟩
    rw [hred]
    have hpu := List.find?_some hfind
    have hmem : u ∈ db.users := List.mem_of_find?_eq_some hfind
    have huid : u.id = uid := by
      have := hpu
      simp only [Bool.and_eq_true, beq_iff_eq] at this
      exact this.1
    have huniqp : ∀ x ∈ db.users,
        (fun x => x.id == uid && x.is_active) x = true → x = u := by
      intro x hx hpx
      simp only [Bool.and_eq_true, beq_iff_eq] at hpx
      exact List.inj_on_of_nodup_map hids hx hmem (hpx.1.trans huid.symm)
    exact (modifyFirst_unique_mem _ _ u db.users
      (List.Nodup.of_map UserRec.id hids) hmem hpu huniqp).1

theorem change_password_guarded_witness :
    change_password dbOneToken "u1" "badpw" "newpw" =
      (.error .currentPasswordIncorrect, dbOneToken) :=
  (change_password_guarded dbOneToken "u1" "badpw" "newpw" aliceUser
      (hash_password "pw1") (by unfold userIdsUnique; decide)
      (by rfl) (by rfl)).1
    (by decide)

/-- Example database with an active user holding one email and a second
user holding another username, for the C10 counterexample. -/
def dbDupBoth : DB :=
  { users :=
      [aliceUser,
       { id := "u2", email := "bob@x.com", username := "bob",
         password_hash := some (hash_password "pw2"), google_id := none,
         phone := none, company := none, profile_complete := false,
         is_active := true }],
    tokens := [], reviews := [] }

/-- C10 counterexample: when an ACTIVE user holds the requested email and
some user simultaneously holds the requested username, signup fails with
the duplicate-email error, not the duplicate-username error — refuting the
right-to-left direction of the stated DuplicateUsername biconditional
(which requires the failure whenever ANY user record holds the username). -/
theorem signup_duplicate_checks_cex :
    (∃ u ∈ dbDupBoth.users, u.username = "bob") ∧
    signup dbDupBoth "alice@x.com" "bob" "pw" "id9" "tok9" 0 =
      .error .duplicateEmail ∧
    signup dbDupBoth "alice@x.com" "bob" "pw" "id9" "tok9" 0 ≠
      .error .duplicateUsername := by
  refine ⟨by decide, rfl, fun hc => ?_⟩
  have hrfl : signup dbDupBoth "alice@x.com" "bob" "pw" "id9" "tok9" 0 =
      .error .duplicateEmail := rfl
  rw [hrfl] at hc
  exact Err.noConfusion (Except.error.inj hc)

/-- C10 (amended): signup fails with the duplicate-email error if and only
if some ACTIVE user record holds the email (the email lookup filters on the
active flag); it fails with the duplicate-username error if and only if the
email check passes (no active user holds the email) and ANY user record —
active or soft-deleted — holds the username (that lookup has no active
filter). In particular a username held by an inactive record blocks signup
while the corresponding email would not. -/
theorem signup_duplicate_checks
    (db : DB) (email username password newId newTok : String) (now : Nat) :
    (signup db email username password newId newTok now =
        .error .duplicateEmail ↔
      ∃ u ∈ db.users, u.email = email ∧ u.is_active = true) ∧
    (signup db email username password newId newTok now =
        .error .duplicateUsername ↔
      (¬ ∃ u ∈ db.users, u.email = email ∧ u.is_active = true) ∧
      ∃ u ∈ db.users, u.username = username) := by
  have hc1 : (get_user_by_email db email).isSome = true ↔
      ∃ u ∈ db.users, u.email = email ∧ u.is_active = true := by
    rw [get_user_by_email, List.find?_isSome]
    simp
  have hc2 : ((db.users.find? (fun u => u.username == username)).isSome = true) ↔
      ∃ u ∈ db.users, u.username = username := by
    rw [List.find?_isSome]
    simp
  by_cases h1 : (get_user_by_email db email).isSome
  · have hred : signup db email username password newId newTok now =
        .error .duplicateEmail := by
      rw [signup, create_user, if_pos h1]
    refine ⟨⟨fun _ => hc1.mp h1, fun _ => hred⟩, ?_, ?_⟩
    · intro habs
      rw [hred] at habs
      exact absurd (Except.error.inj habs) (by simp)
    · rintro ⟨hne, _⟩
      exact absurd (hc1.mp h1) hne
  · by_cases h2 : ((db.users).find? (fun u => u.username == username)).isSome
    · have hred : signup db email username password newId newTok now =
          .error .duplicateUsername := by
        rw [signup, create_user, if_neg h1, if_pos h2]
      refine ⟨⟨?_, ?_⟩, ?_, ?_⟩
      · intro habs
        rw [hred] at habs
        exact absurd (Except.error.inj habs) (by simp)
      · intro hex
        exact absurd (hc1.mpr hex) h1
      · intro _
        exact ⟨fun hex => h1 (hc1.mpr hex), hc2.mp h2⟩
      · intro _
        exact hred
    · have hok : (signup db email username password newId newTok now).isOk
          = true := by
        rw [signup, create_user, if_neg h1, if_neg h2]
        rfl
      refine ⟨⟨?_, ?_⟩, ?_, ?_⟩
      · intro habs
        rw [habs] at hok
        exact absurd hok (by decide)
      · intro hex
        exact absurd (hc1.mpr hex) h1
      · intro habs
        rw [habs] at hok
        exact absurd hok (by decide)
      · rintro ⟨_, hex⟩
        exact absurd (hc2.mpr hex) h2

end CRM
